import Mathlib

/-!
Verification model of the HaTSPiL execution engine
(`src/hatspil/core/executor.py`).

The executor's pure logic is shallowly embedded: Python dictionaries
become association lists preserving insertion order, exceptions become
`Except PyError`, the filesystem becomes an explicit list of existing
file names, and external capabilities (the barcode parser, the process
launcher, configuration lookups) become fields of an `Env` record of
oracle functions.  Python string/path builtins used by the source are
reimplemented over `List Char` so that every definition evaluates inside
the kernel.
-/

namespace Hatspil

/-! ### Characters that the token rules keep out of literals -/

def obrace : Char := Char.ofNat 123

def cbrace : Char := Char.ofNat 125

def quoteChar : Char := Char.ofNat 39

/-! ### Python string and `os.path` builtins, over `List Char` -/

/-- `begins_with pat l` is true when `pat` is an initial segment of `l`. -/
def begins_with : List Char → List Char → Bool
  | [], _ => true
  | _ :: _, [] => false
  | p :: ps, c :: cs => p == c && begins_with ps cs

/-- Python `str.replace`: replace every (non-overlapping, left-to-right)
occurrence of `pat` by `rep`.  The fuel argument keeps the recursion
structural; each step consumes at least one character, so the string
length is enough fuel. -/
def replace_all_go (pat rep : List Char) : Nat → List Char → List Char
  | _, [] => []
  | 0, l => l
  | fuel + 1, c :: cs =>
    if !pat.isEmpty && begins_with pat (c :: cs) then
      rep ++ replace_all_go pat rep fuel ((c :: cs).drop pat.length)
    else
      c :: replace_all_go pat rep fuel cs

/-- Python `str.replace` on `String`. -/
def py_replace (s pat rep : String) : String :=
  String.mk (replace_all_go pat.data rep.data s.data.length s.data)

/-- Python `str.startswith`. -/
def py_startswith (s pat : String) : Bool :=
  begins_with pat.data s.data

/-- Python `s.split(" ")[0]`. -/
def py_first_word (s : String) : String :=
  String.mk (s.data.takeWhile (fun c => !(c == ' ')))

/-- Python `str.lower`, restricted to ASCII as used on file extensions. -/
def py_lower (s : String) : String :=
  String.mk (s.data.map Char.toLower)

/-- Python `s[:-n]`. -/
def py_drop_right (s : String) (n : Nat) : String :=
  String.mk (s.data.take (s.data.length - n))

/-- `os.path.basename`: the part after the last slash. -/
def os_path_basename (p : String) : String :=
  String.mk (p.data.reverse.takeWhile (fun c => !(c == '/'))).reverse

/-- `os.path.dirname`: the part before the last slash, with trailing
slashes stripped unless the head is made of slashes only. -/
def os_path_dirname (p : String) : String :=
  let cs := p.data
  if cs.contains '/' then
    let head := (cs.reverse.dropWhile (fun c => !(c == '/'))).reverse
    if head.all (fun c => c == '/') then String.mk head
    else String.mk (head.reverse.dropWhile (fun c => c == '/')).reverse
  else ""

/-- `os.path.join` for two components (posix rules). -/
def os_path_join (a b : String) : String :=
  if begins_with ['/'] b.data then b
  else if a == "" then b
  else if (a.data.reverse.head?).any (fun c => c == '/') then a ++ b
  else a ++ "/" ++ b

/-- The extension component of `os.path.splitext` (posix rules: the part
from the last dot of the basename, unless every preceding character of
the basename is itself a dot). -/
def os_path_splitext_ext (p : String) : String :=
  let base := (p.data.reverse.takeWhile (fun c => !(c == '/'))).reverse
  if base.contains '.' then
    let revAfter := base.reverse.takeWhile (fun c => !(c == '.'))
    let before := base.take (base.length - revAfter.length - 1)
    if !before.isEmpty && before.any (fun c => !(c == '.')) then
      String.mk ('.' :: revAfter.reverse)
    else ""
  else ""

/-! ### Data model -/

/-- `AnalysisType` from `executor.py`: sample, control, or unspecified. -/
inductive AnalysisType where
  | Unspecified
  | Sample
  | Control
deriving DecidableEq, Repr, BEq

/-- Modelled from the spec: the tissue classification exposed by
`BarcodedFilename` (the barcode parser is not under `src/`); only the
`is_normal` / `is_tumor` predicates are consumed by the executor. -/
inductive Tissue where
  | normal
  | tumor
  | other
deriving DecidableEq, Repr

def Tissue.is_normal : Tissue → Bool
  | .normal => true
  | _ => false

def Tissue.is_tumor : Tissue → Bool
  | .tumor => true
  | _ => false

/-- Modelled from the spec: the structured metadata `BarcodedFilename`
(not under `src/`) extracts from a file name.  `ident` collapses every
identity field other than tissue and sequencing (project, patient,
biopsy, ...); `organism` is `""` when the barcode carries none;
`read_index` is `0` when absent (Python truthiness treats `0` and
`None` the same way in `_create_mod_input_filenames`). -/
structure Barcode where
  ident : String
  tissue : Tissue
  sequencing : String
  organism : String
  read_index : Nat
deriving DecidableEq, Repr

/-- Modelled from the spec: barcode identity ignoring tissue type
(`BarcodedFilename.equals_without_tissue`); sequencing method is
compared separately during normals pairing. -/
def Barcode.equals_without_tissue (a b : Barcode) : Bool :=
  a.ident == b.ident

/-- `AnalysisFileData` from `executor.py`: a file name plus its barcode
when parsing succeeds; normal tissue ⇒ control, tumor tissue ⇒ sample,
anything else (including a parse failure) ⇒ unspecified. -/
structure AnalysisFileData where
  filename : String
  type : AnalysisType
  barcode : Option Barcode
deriving DecidableEq, Repr, BEq

/-- The `AnalysisFileData.__init__` classification. -/
def mkFileData (classify : String → Option Barcode) (filename : String) :
    AnalysisFileData :=
  match classify filename with
  | some b =>
    { filename := filename
      type :=
        if b.tissue.is_normal then AnalysisType.Control
        else if b.tissue.is_tumor then AnalysisType.Sample
        else AnalysisType.Unspecified
      barcode := some b }
  | none => { filename := filename, type := AnalysisType.Unspecified, barcode := none }

/-- `SingleAnalysis` from `executor.py`: an ordered list of files. -/
abbrev SingleAnalysis := List AnalysisFileData

/-- `SingleAnalysis.sample`: the first file classified as a sample. -/
def sample_of (a : SingleAnalysis) : Option AnalysisFileData :=
  a.find? (fun fd => fd.type == AnalysisType.Sample)

/-- `SingleAnalysis.control`: the first file classified as a control. -/
def control_of (a : SingleAnalysis) : Option AnalysisFileData :=
  a.find? (fun fd => fd.type == AnalysisType.Control)

/-- `AnalysesPerOrganism`: insertion-ordered mapping organism → units. -/
abbrev AnalysesPerOrganism := List (String × List SingleAnalysis)

/-- Python exceptions crossing the modelled code. -/
inductive PyError where
  | pipelineError (msg : String)
  | assertionError
  | attributeError
  | keyError
  | fileNotFoundError (filename : String)
deriving DecidableEq, Repr

/-- Values a template placeholder can evaluate to (the slice of the
Python variable scope that templates consume, spec §9 directs the
ambient `eval` to be modelled as an explicit context). -/
inductive PyVal where
  | str (s : String)
  | strList (ss : List String)
  | fileData (fd : AnalysisFileData)
  | fileDataList (fds : List AnalysisFileData)
  | noneVal
deriving DecidableEq, Repr

/-- Python `str()` of a context value (`AnalysisFileData.__repr__`
returns the bare file name). -/
def pyStr : PyVal → String
  | .str s => s
  | .strList ss =>
    "[" ++ String.intercalate ", "
      (ss.map (fun s => quoteChar.toString ++ s ++ quoteChar.toString)) ++ "]"
  | .fileData fd => fd.filename
  | .fileDataList fds => "[" ++ String.intercalate ", " (fds.map (·.filename)) ++ "]"
  | .noneVal => "None"

/-- The named-variable context templates are evaluated against; the
newest binding stands first. -/
abbrev Ctx := List (String × PyVal)

def ctx_lookup (ctx : Ctx) (name : String) : Option PyVal :=
  (ctx.find? (fun p => p.1 == name)).map (·.2)

/-- The filesystem: the set of existing file names. -/
abbrev FS := List String

/-- `os.path.exists`. -/
def os_path_exists (fs : FS) (f : String) : Bool := fs.contains f

/-- `os.unlink`: a missing file raises `FileNotFoundError`. -/
def os_unlink (fs : FS) (f : String) : Except PyError FS :=
  if fs.contains f then Except.ok (fs.filter (fun g => !(g == f)))
  else Except.error (PyError.fileNotFoundError f)

/-- Observable execution events (process launches and callback calls,
real or dry-run). -/
inductive TraceEv where
  | ranProcess (cmd : String) (status : Int)
  | ranCallback (name : String)
  | fakedProcess (cmd : String)
  | fakedCallback (name : String)
deriving DecidableEq, Repr

/-- Whether the event launched a process or invoked a callback for real. -/
def TraceEv.is_real : TraceEv → Bool
  | .ranProcess _ _ => true
  | .ranCallback _ => true
  | _ => false

/-! ### Step configuration, engine state, and environment -/

/-- Python `Union[str, List[str]]`, the argument type of `input_function`. -/
abbrev PyStrOrList := Sum String (List String)

/-- The `command` argument: a command-line template, a list of them, or
an in-process callback (identified by name; the executor treats it as
opaque and only invokes it). -/
inductive ExecCommand where
  | str (s : String)
  | strList (ss : List String)
  | callable (name : String)

/-- One entry of `output_format`: a template string or a callable that
produces one from the variable context. -/
inductive OutputFormatItem where
  | str (s : String)
  | func (f : Ctx → String)

/-- `config.KitData` as consumed here: only the `indels_{organism}`
attributes are read (configuration is an excluded collaborator). -/
structure KitData where
  indels : String → String

/-- `_ExecutorData`: the per-step configuration (same fields, same
defaults as `Executor.__call__`). -/
structure ExecutorData where
  command : ExecCommand
  output_format : Option (List OutputFormatItem) := none
  input_filenames : Option (List String) := none
  input_function : Option (PyStrOrList → Option String) := none
  input_split_reads : Bool := true
  output_path : Option String := none
  output_function : Option (String → List String) := none
  error_string : Option String := none
  exception_string : Option String := none
  override_last_files : Bool := true
  write_bam_files : Bool := true
  unlink_inputs : Bool := false
  save_only_last : Bool := true
  use_normals : Bool := false
  split_by_organism : Bool := false
  only_human : Bool := false
  split_input_files : Bool := true
  allow_raw_filenames : Bool := false

/-- The engine state carried by the `Analysis` object, as read and
written by the executor. -/
structure Analysis where
  last_operation_filenames : Option (List (String × List String)) := none
  bamfiles : List (String × List String) := []
  can_unlink : Bool := false
  run_fake : Bool := false
  use_normals_param : Bool := false
deriving DecidableEq, Repr

/-- External capabilities: the barcode parser, the process launcher
(`utils.run_and_log`, its value is the exit status) and the
configuration lookups of `utils` (all excluded collaborators or code
not under `src/`). -/
structure Env where
  classify : String → Option Barcode
  run_and_log : String → Int
  human_annotation : String
  genome_ref_index : String → Option (String × String)
  dbsnp : String → Option String
  cosmic : String → Option String
  kit_from_barcoded : Barcode → Option KitData
  cwd : String

/-- Python truthiness of an optional string (`None` and `""` are falsy). -/
def py_truthy_str : Option String → Bool
  | none => false
  | some s => !s.isEmpty

/-- `dict.setdefault(k, []).append(v)`: append to the key's list,
inserting the key at the end on first use. -/
def alist_append [BEq κ] (m : List (κ × List α)) (k : κ) (v : α) :
    List (κ × List α) :=
  if m.any (fun p => p.1 == k) then
    m.map (fun p => if p.1 == k then (p.1, p.2 ++ [v]) else p)
  else m ++ [(k, [v])]

/-! ### Template resolution (`Executor.RE_REPLACER` loops) -/

/-- The placeholder expressions `\x7b([^\x7d]+)\x7d` finds in a string,
in match order.  Fuel keeps the recursion structural; each step
consumes at least one character. -/
def find_placeholders_go : Nat → List Char → List String
  | _, [] => []
  | 0, _ => []
  | fuel + 1, c :: rest =>
    if c == obrace then
      let body := rest.takeWhile (fun d => !(d == cbrace))
      match rest.drop body.length with
      | _ :: tail =>
        if body.isEmpty then find_placeholders_go fuel rest
        else String.mk body :: find_placeholders_go fuel tail
      | [] => []
    else find_placeholders_go fuel rest

def find_placeholders (s : String) : List String :=
  find_placeholders_go s.data.length s.data

def mk_placeholder (e : String) : String :=
  obrace.toString ++ e ++ cbrace.toString

/-- The placeholder loop shared by `_get_output_filename` (lines
230–242) and `_get_commands` (lines 574–609): every placeholder of the
original string is evaluated against the context; a failing evaluation
raises `cannot evaluate ...`, a `None` result raises
`evaluation of ... is None`, otherwise every occurrence of the
placeholder is substituted by the value's string form. -/
def resolve_template_go (ctx : Ctx) : List String → String → Except PyError String
  | [], acc => Except.ok acc
  | e :: rest, acc =>
    match ctx_lookup ctx e with
    | none => Except.error (PyError.pipelineError ("cannot evaluate " ++ e))
    | some v =>
      if v == PyVal.noneVal then
        Except.error (PyError.pipelineError ("evaluation of " ++ e ++ " is None"))
      else resolve_template_go ctx rest (py_replace acc (mk_placeholder e) (pyStr v))

def resolve_template (ctx : Ctx) (s : String) : Except PyError String :=
  resolve_template_go ctx (find_placeholders s) s

/-- The placeholder loop of `_handle_command` (lines 334–352) used on
`error_string` / `exception_string`: an evaluation failure raises
`cannot replace parameter ...`; a `None` value is substituted verbatim
as `None` (no error — `str(eval(...))` is applied directly). -/
def resolve_err_template_go (ctx : Ctx) : List String → String → Except PyError String
  | [], acc => Except.ok acc
  | e :: rest, acc =>
    match ctx_lookup ctx e with
    | none =>
      Except.error (PyError.pipelineError ("cannot replace parameter " ++ mk_placeholder e))
    | some v =>
      resolve_err_template_go ctx rest (py_replace acc (mk_placeholder e) (pyStr v))

def resolve_err_template (ctx : Ctx) (s : String) : Except PyError String :=
  resolve_err_template_go ctx (find_placeholders s) s

/-! ### Output bookkeeping (`_handle_output_filename`) -/

/-- The step-wide output accumulator: organism → produced file names,
plus the `.bam` subset. -/
structure Accs where
  output_filenames : List (String × List String) := []
  output_bamfiles : List (String × List String) := []
deriving DecidableEq, Repr

/-- The result of `_get_output_filename`: `None`, a single string, or a
list of strings (`if output_filename:` gives each its own truthiness). -/
inductive OutputFilenameVal where
  | noneVal
  | str (s : String)
  | list (ss : List String)
deriving DecidableEq, Repr

def output_truthy : OutputFilenameVal → Bool
  | .noneVal => false
  | .str s => !s.isEmpty
  | .list ss => !ss.isEmpty

def output_files : OutputFilenameVal → List String
  | .noneVal => []
  | .str s => [s]
  | .list ss => ss

def output_pyval : OutputFilenameVal → PyVal
  | .noneVal => PyVal.noneVal
  | .str s => PyVal.str s
  | .list ss => PyVal.strList ss

/-- `_handle_output_filename` (lines 163–201): normalize bare names to
the working directory, and — unless `save_only_last` restricts
bookkeeping to the final command — append each name to the accumulator
under its (re-classified, when `split_by_organism`) organism, tracking
`.bam` outputs separately. -/
def handle_output_filename (data : ExecutorData) (env : Env)
    (command_index commands_len : Nat) (organism : String)
    (output_filename : OutputFilenameVal) (accs : Accs) : Accs :=
  let files := (output_files output_filename).map (fun filename =>
    let dirname := os_path_dirname filename
    if dirname == "" || dirname == "." then os_path_join env.cwd filename
    else filename)
  if !data.save_only_last || command_index == commands_len - 1 then
    files.foldl (fun accs filename =>
      let output_organism :=
        if data.split_by_organism then
          match env.classify filename with
          | some b => if b.organism == "" then organism else b.organism
          | none => organism
        else organism
      let accs :=
        { accs with
            output_filenames :=
              alist_append accs.output_filenames output_organism filename }
      if os_path_splitext_ext filename == ".bam" then
        { accs with
            output_bamfiles :=
              alist_append accs.output_bamfiles output_organism filename }
      else accs) accs
  else accs

/-! ### Output naming (`_get_output_filename`) -/

/-- `_get_output_filename` (lines 203–272). -/
def get_output_filename (data : ExecutorData) (ctx : Ctx)
    (input_filenames : SingleAnalysis) : Except PyError OutputFilenameVal :=
  match data.output_format with
  | some raw_output_formats => do
    let output_formats := raw_output_formats.map (fun item =>
      match item with
      | .str s => s
      | .func f => f ctx)
    let output_formats :=
      match data.output_path with
      | some p => output_formats.map (fun f => os_path_join p f)
      | none => output_formats
    let output_filename ← output_formats.mapM (resolve_template ctx)
    let output_filename :=
      match data.output_function with
      | some f => (output_filename.map f).flatten
      | none => output_filename
    match output_filename with
    | [single] => pure (OutputFilenameVal.str single)
    | many => pure (OutputFilenameVal.list many)
  | none =>
    match data.output_function with
    | some f =>
      match (input_filenames.map (fun fd => f fd.filename)).flatten with
      | [single] => pure (OutputFilenameVal.str single)
      | many => pure (OutputFilenameVal.list many)
    | none => pure OutputFilenameVal.noneVal

/-! ### Input deletion (`_unlink_filename`) -/

/-- The `.bam` companion handling of the deletion loop (lines 294–297):
for an alignment file, unlink the `.bai` index when it exists. -/
def unlink_bai_companion (fs : FS) (filename : String) : Except PyError FS :=
  if py_lower (os_path_splitext_ext filename) == ".bam" then
    if os_path_exists fs (py_drop_right filename 4 ++ ".bai") then
      os_unlink fs (py_drop_right filename 4 ++ ".bai")
    else pure fs
  else pure fs

/-- The per-file deletion loop (lines 290–297): `os.unlink` each file —
a missing file raises — and, for `.bam` files, also unlink the `.bai`
companion when it exists. -/
def unlink_files_loop : FS → List AnalysisFileData → Except PyError FS
  | fs, [] => Except.ok fs
  | fs, file_data :: rest => do
    let fs ← os_unlink fs file_data.filename
    let fs ← unlink_bai_companion fs file_data.filename
    unlink_files_loop fs rest

/-- The choice of lines 286–288: with an `input_function`, the files to
delete are the pre-transform ones (`real_input_filename`, asserted to
be present). -/
def select_unlink_input (data : ExecutorData)
    (input_filename : SingleAnalysis)
    (real_input_filename : Option SingleAnalysis) :
    Except PyError SingleAnalysis :=
  if data.input_function.isSome then
    match real_input_filename with
    | some r => pure r
    | none => Except.error PyError.assertionError
  else pure input_filename

/-- `_unlink_filename` (lines 274–297): when the step requests deletion,
the engine permits it and the run is real, delete the unit's files —
the pre-transform ones when an `input_function` is configured. -/
def unlink_filename (data : ExecutorData) (analysis : Analysis)
    (input_filename : SingleAnalysis)
    (real_input_filename : Option SingleAnalysis) (fs : FS) :
    Except PyError FS :=
  if data.unlink_inputs && analysis.can_unlink && !analysis.run_fake then do
    let input_filename ← select_unlink_input data input_filename real_input_filename
    unlink_files_loop fs input_filename
  else pure fs

/-! ### Command execution (`_handle_command`) -/

/-- A command after placeholder resolution: a process command line or a
callback. -/
inductive ResolvedCommand where
  | proc (s : String)
  | callback (name : String)
deriving DecidableEq, Repr

/-- `_handle_command` (lines 299–354): launch the process (or invoke
the callback) unless the run is a dry run; on a non-zero exit status,
build the error/exception strings — note the `assert
isinstance(self.data.command, str)` guarding that path — resolve their
placeholders and raise `PipelineError` with the resolved exception
string. -/
def handle_command (data : ExecutorData) (env : Env) (analysis : Analysis)
    (current_command : ResolvedCommand) (ctx : Ctx) :
    Except PyError (List TraceEv) := do
  let (status, ev) : Int × TraceEv :=
    match current_command with
    | .proc s =>
      if !analysis.run_fake then (env.run_and_log s, TraceEv.ranProcess s (env.run_and_log s))
      else (0, TraceEv.fakedProcess s)
    | .callback n =>
      if !analysis.run_fake then (0, TraceEv.ranCallback n)
      else (0, TraceEv.fakedCallback n)
  if status ≠ 0 then
    match data.command with
    | ExecCommand.str cmd =>
      let arg_zero := os_path_basename (py_first_word cmd)
      let error_string :=
        match data.error_string with
        | none => arg_zero ++ " exited with status " ++ toString status
        | some s => s
      let exception_string :=
        match data.exception_string with
        | none => arg_zero ++ " error"
        | some s => s
      let _ ← resolve_err_template ctx error_string
      let exception_string ← resolve_err_template ctx exception_string
      Except.error (PyError.pipelineError exception_string)
    | _ => Except.error PyError.assertionError
  else pure [ev]

/-! ### Input resolution (`_get_input_filenames` and helpers) -/

/-- `_fix_input_filenames` (lines 407–419): an empty input mapping is an
error; when `input_split_reads` is off, collapse each organism's units
into a single unit. -/
def fix_input_filenames (data : ExecutorData)
    (input_filenames : AnalysesPerOrganism) :
    Except PyError AnalysesPerOrganism :=
  if input_filenames.isEmpty then
    Except.error (PyError.pipelineError "empty input list")
  else if !data.input_split_reads then
    Except.ok (input_filenames.map (fun p => (p.1, [p.2.flatten])))
  else Except.ok input_filenames

/-- The read-index grouping of `_create_mod_input_filenames` (lines
372–383): group file names by the barcode's read index, unparsable or
index-less files under key `0`, preserving insertion order. -/
def split_by_read_index (classify : String → Option Barcode)
    (filenames : List String) : List (Nat × List String) :=
  filenames.foldl (fun acc filename =>
    match classify filename with
    | some b => alist_append acc b.read_index filename
    | none => alist_append acc 0 filename) []

/-- The per-unit transform of `_create_mod_input_filenames` (lines
368–399): with `input_split_reads`, apply `input_function` once per
read-index group (a single-element group is passed as a bare string)
and keep only truthy results; without it, apply the function to the
whole file list and wrap the result unconditionally (Python would store
`None` as the file name of the fresh unit). -/
def mod_units_of_analysis (data : ExecutorData) (env : Env)
    (input_function : PyStrOrList → Option String)
    (analysis : SingleAnalysis) : List SingleAnalysis :=
  let filenames := analysis.map (·.filename)
  if data.input_split_reads then
    (split_by_read_index env.classify filenames).foldl (fun mod_analyses p =>
      let param : PyStrOrList :=
        match p.2 with
        | [single] => Sum.inl single
        | many => Sum.inr many
      match input_function param with
      | some input_str => mod_analyses ++ [[mkFileData env.classify input_str]]
      | none => mod_analyses) []
  else
    let result := input_function (Sum.inr filenames)
    [[mkFileData env.classify (result.getD "None")]]

/-- `_create_mod_input_filenames` (lines 356–405): fix the input mapping
in place, build the transformed mapping organism by organism (the
organism key is inserted before any unit is produced, exactly like
`dict.setdefault`), raise `empty input list` if the transformed mapping
has no organisms, and fix the transformed mapping.  Returns the pair
`(fixed input, transformed)` that the in-place mutation hands back to
`_get_input_filenames`. -/
def create_mod_input_filenames (data : ExecutorData) (env : Env)
    (input_function : PyStrOrList → Option String)
    (input_filenames : AnalysesPerOrganism) :
    Except PyError (AnalysesPerOrganism × AnalysesPerOrganism) := do
  let input_filenames ← fix_input_filenames data input_filenames
  let mod_input_filenames : AnalysesPerOrganism :=
    input_filenames.map (fun p =>
      (p.1, p.2.foldl (fun mod_analyses analysis =>
        mod_analyses ++ mod_units_of_analysis data env input_function analysis) []))
  if mod_input_filenames.isEmpty then
    Except.error (PyError.pipelineError "empty input list")
  else do
    let mod_input_filenames ← fix_input_filenames data mod_input_filenames
    pure (input_filenames, mod_input_filenames)

/-! ### Normals pairing (`_get_fixed_normals_analyses`) -/

/-- `file_data.barcode` attribute access: an `AnalysisFileData` whose
parse failed has no barcode, and Python raises `AttributeError`. -/
def barcode_of (fd : AnalysisFileData) : Except PyError Barcode :=
  match fd.barcode with
  | some b => pure b
  | none => Except.error PyError.attributeError

/-- The `controls` comprehension (lines 434–440): every file of every
unit whose barcode matches the sample's ignoring tissue and whose
tissue is normal, tagged with its unit index and position (Python
identifies the objects to move by identity; positions play that role
here). -/
def collect_controls (analyses : List SingleAnalysis) (b : Barcode) :
    Except PyError (List (Nat × Nat × AnalysisFileData)) :=
  analyses.enum.foldlM (fun acc p =>
    p.2.enum.foldlM (fun acc q => do
      let ob ← barcode_of q.2
      if b.equals_without_tissue ob && ob.tissue.is_normal then
        pure (acc ++ [(p.1, q.1, q.2)])
      else pure acc) acc) []

/-- Drop the elements standing at the given positions. -/
def remove_idxs (l : List AnalysisFileData) (ks : List Nat) : List AnalysisFileData :=
  (l.enum.filter (fun p => !ks.contains p.1)).map (·.2)

/-- The removals of the multi-control branch (lines 460–461): every
matched control is removed from its source unit — except those sourced
from the sample's own unit, whose removal Python loses because
`analyses[analysis_index]` was just rebound to a fresh list. -/
def remove_controls (analyses : List SingleAnalysis) (i : Nat)
    (controls : List (Nat × Nat × AnalysisFileData)) : List SingleAnalysis :=
  analyses.enum.map (fun p =>
    if p.1 == i then p.2
    else remove_idxs p.2 ((controls.filter (fun t => t.1 == p.1)).map (fun t => t.2.1)))

/-- One iteration of the `_get_fixed_normals_analyses` loop (lines
426–461) at position `analysis_index`. -/
def fixed_normals_step (analyses : List SingleAnalysis) (analysis_index : Nat) :
    Except PyError (List SingleAnalysis) :=
  match analyses.get? analysis_index with
  | none => pure analyses
  | some analysis =>
    match analysis with
    | [] => pure analyses
    | file_data :: _ =>
      if file_data.type ≠ AnalysisType.Sample then pure analyses
      else do
        let b ← barcode_of file_data
        let controls ← collect_controls analyses b
        match controls with
        | [(j, k, c)] =>
          if j == analysis_index then
            pure (analyses.set analysis_index (analysis.eraseIdx k ++ [c]))
          else
            let analyses := analyses.set analysis_index (analysis ++ [c])
            pure (analyses.set j (remove_idxs ((analyses.get? j).getD []) [k]))
        | _ =>
          let sequencing_specific := controls.filter (fun t =>
            (t.2.2.barcode.map (·.sequencing)) == some b.sequencing)
          let controls :=
            if !sequencing_specific.isEmpty then sequencing_specific else controls
          let analyses :=
            analyses.set analysis_index (analysis ++ controls.map (fun t => t.2.2))
          pure (remove_controls analyses analysis_index controls)

/-- `_get_fixed_normals_analyses` (lines 421–463): run the pairing pass
over every unit position, then drop the units left empty. -/
def get_fixed_normals_analyses (analyses : List SingleAnalysis) :
    Except PyError (List SingleAnalysis) := do
  let final ← (List.range analyses.length).foldlM fixed_normals_step analyses
  pure (final.filter (fun a => !a.isEmpty))

/-! ### Raw input collection (`_get_input_filenames`) -/

/-- Either shape `utils.get_sample_filenames` can hand back. -/
inductive RawInputs where
  | dict (m : List (String × List String))
  | flat (l : List String)

/-- Modelled from the spec: `utils.get_sample_filenames` (not under
`src/`) flattens the pipeline state back to file names, keeping the
organism grouping only when `split_by_organism` is set; an explicit
file list is grouped by each file's classified organism (`""` for
unclassifiable files) under `split_by_organism`, else passed through. -/
def get_sample_filenames (classify : String → Option Barcode)
    (source : Sum (List (String × List String)) (List String))
    (split_by_organism : Bool) : RawInputs :=
  match source with
  | Sum.inl state =>
    if split_by_organism then RawInputs.dict state
    else RawInputs.flat (state.map (·.2)).flatten
  | Sum.inr filenames =>
    if split_by_organism then
      RawInputs.dict (filenames.foldl (fun acc f =>
        match classify f with
        | some b => alist_append acc b.organism f
        | none => alist_append acc "" f) [])
    else RawInputs.flat filenames

/-- The grouping of raw file names into units (lines 482–505): one unit
per file under `split_input_files`, else one unit per organism. -/
def group_analyses (data : ExecutorData) (env : Env) (raw : RawInputs) :
    AnalysesPerOrganism :=
  match raw with
  | RawInputs.dict m =>
    m.map (fun p =>
      (p.1,
        if data.split_input_files then
          p.2.map (fun f => [mkFileData env.classify f])
        else [p.2.map (mkFileData env.classify)]))
  | RawInputs.flat l =>
    [("",
      if data.split_input_files then l.map (fun f => [mkFileData env.classify f])
      else [l.map (mkFileData env.classify)])]

/-- `_get_input_filenames` (lines 465–517): resolve the raw source
(explicit `input_filenames` or the engine's pipeline state — missing
both raises), group into units, re-pair normals when requested by both
the step and the global toggle, then either hand the mapping to the
transform or fix it and return an empty transformed mapping. -/
def get_input_filenames (data : ExecutorData) (env : Env)
    (analysis : Analysis) :
    Except PyError (AnalysesPerOrganism × AnalysesPerOrganism) := do
  let raw_input_filenames ←
    match data.input_filenames with
    | none =>
      match analysis.last_operation_filenames with
      | none =>
        Except.error (PyError.pipelineError
          "input files missing and last_operation_filenames empty")
      | some last =>
        pure (get_sample_filenames env.classify (Sum.inl last) data.split_by_organism)
    | some fns =>
      pure (get_sample_filenames env.classify (Sum.inr fns) data.split_by_organism)
  let input_filenames := group_analyses data env raw_input_filenames
  let input_filenames ←
    if analysis.use_normals_param && data.use_normals then
      input_filenames.mapM (fun p => do
        pure (p.1, ← get_fixed_normals_analyses p.2))
    else pure input_filenames
  match data.input_function with
  | some f => create_mod_input_filenames data env f input_filenames
  | none => do
    let fixed ← fix_input_filenames data input_filenames
    pure (fixed, ([] : AnalysesPerOrganism))

/-! ### Variable context building (`_get_additional_params` etc.) -/

/-- `_get_additional_params` (lines 519–551): `organism_str`, and the
reference/annotation paths that resolve for the (defaulted) organism —
a failing lookup simply leaves the variable out of scope. -/
def get_additional_params (env : Env) (organism : Option String) :
    List (String × String) :=
  let organism_str := if !py_truthy_str organism then "" else "." ++ organism.getD ""
  let eff := if !py_truthy_str organism then env.human_annotation else organism.getD ""
  [("organism_str", organism_str)]
  ++ (match env.genome_ref_index eff with
      | some ri => [("genome_ref", ri.1), ("genome_index", ri.2)]
      | none => [])
  ++ (match env.dbsnp eff with
      | some d => [("dbsnp", d)]
      | none => [])
  ++ (match env.cosmic eff with
      | some c => [("cosmic", c)]
      | none => [])

/-- `_get_kit_additional_params` (lines 553–563): the kit's
`indels_{organism}` attribute, only for human-genome organisms. -/
def get_kit_additional_params (env : Env) (organism : Option String)
    (kit : Option KitData) : List (String × String) :=
  let eff := if !py_truthy_str organism then env.human_annotation else organism.getD ""
  match kit with
  | some k => if py_startswith eff "hg" then [("indels", k.indels eff)] else []
  | none => []

/-! ### Command resolution (`_get_commands`) -/

/-- `_get_commands` (lines 565–613): resolve the placeholders of each
command template; callbacks pass through unchanged. -/
def get_commands (data : ExecutorData) (ctx : Ctx) :
    Except PyError (List ResolvedCommand) :=
  match data.command with
  | ExecCommand.strList ss => do
    let resolved ← ss.mapM (resolve_template ctx)
    pure (resolved.map ResolvedCommand.proc)
  | ExecCommand.str s => do
    let resolved ← resolve_template ctx s
    pure [ResolvedCommand.proc resolved]
  | ExecCommand.callable n => pure [ResolvedCommand.callback n]

/-! ### Per-unit execution (`_handle_analysis`) -/

/-- The per-command loop of `_handle_analysis` (lines 669–683): run each
command in order and, when an output name is present (truthy), record
it after each command. -/
def handle_commands_loop (data : ExecutorData) (env : Env)
    (analysis : Analysis) (ctx : Ctx) (output_filename : OutputFilenameVal)
    (organism : String) (commands_len : Nat) :
    List (Nat × ResolvedCommand) → Accs → List TraceEv →
    Except PyError (Accs × List TraceEv)
  | [], accs, trace => pure (accs, trace)
  | p :: rest, accs, trace => do
    let tr ← handle_command data env analysis p.2 ctx
    let accs :=
      if output_truthy output_filename then
        handle_output_filename data env p.1 commands_len organism output_filename accs
      else accs
    handle_commands_loop data env analysis ctx output_filename organism
      commands_len rest accs (trace ++ tr)

/-- The unit swap of lines 625–632: with an `input_function`, execute
the transformed unit and keep the original as `real_analysis_input`
(asserted to be present). -/
def select_analysis_input (data : ExecutorData)
    (analysis_input : SingleAnalysis)
    (mod_analysis_input : Option SingleAnalysis) :
    Except PyError (Option SingleAnalysis × SingleAnalysis) :=
  if data.input_function.isSome then
    match mod_analysis_input with
    | some m => pure (some analysis_input, m)
    | none => Except.error PyError.assertionError
  else pure (none, analysis_input)

/-- Lines 638–640: the sample file, falling back to the control file. -/
def sample_or_control (analysis_input : SingleAnalysis) :
    Option AnalysisFileData :=
  match sample_of analysis_input with
  | some fd => some fd
  | none => control_of analysis_input

/-- Lines 645–650: organism and kit from the designated file's barcode
(an unparsable designated file raises `AttributeError`). -/
def organism_kit_of (env : Env) (file_data : Option AnalysisFileData) :
    Except PyError (Option String × Option KitData) :=
  match file_data with
  | some fd => do
    let b ← barcode_of fd
    pure (some b.organism, env.kit_from_barcoded b)
  | none => pure (none, none)

/-- `_handle_analysis` (lines 615–685): swap in the transformed unit
(keeping the original as `real_analysis_input`), pick the sample-or-
control file, derive organism and kit, and — unless `only_human` skips
a non-human unit — build the variable context, resolve the output
name(s) and the commands, run them, record outputs, and finally delete
the consumed inputs (the deletion stands outside the `only_human`
guard). -/
def handle_analysis (data : ExecutorData) (env : Env) (analysis : Analysis)
    (analysis_input : SingleAnalysis)
    (mod_analysis_input : Option SingleAnalysis)
    (accs : Accs) (fs : FS) : Except PyError (Accs × FS × List TraceEv) := do
  let (real_analysis_input, analysis_input) ←
    select_analysis_input data analysis_input mod_analysis_input
  let file_data := sample_or_control analysis_input
  if !data.allow_raw_filenames && file_data.isNone then
    Except.error PyError.assertionError
  else do
    let (organism, kit) ← organism_kit_of env file_data
    let kit_params := get_kit_additional_params env organism kit
    if !data.only_human || !py_truthy_str organism
        || py_startswith (organism.getD "") "hg" then do
      let add_params := get_additional_params env organism
      let organism :=
        if !py_truthy_str organism then env.human_annotation else organism.getD ""
      let ctx : Ctx :=
        [("organism", PyVal.str organism)]
        ++ (match analysis_input with
            | [fd] => [("input_filename", PyVal.fileData fd)]
            | _ => [])
        ++ [("input_filenames", PyVal.fileDataList analysis_input)]
        ++ (match real_analysis_input with
            | some r => [("real_analysis_input", PyVal.fileDataList r)]
            | none => [])
        ++ add_params.map (fun p => (p.1, PyVal.str p.2))
        ++ kit_params.map (fun p => (p.1, PyVal.str p.2))
      let output_filename ← get_output_filename data ctx analysis_input
      let ctx := ("output_filename", output_pyval output_filename) :: ctx
      let commands ← get_commands data ctx
      let (accs, trace) ← handle_commands_loop data env analysis ctx
        output_filename organism commands.length commands.enum accs []
      let fs ← unlink_filename data analysis analysis_input real_analysis_input fs
      pure (accs, fs, trace)
    else do
      let fs ← unlink_filename data analysis analysis_input real_analysis_input fs
      pure (accs, fs, ([] : List TraceEv))

/-! ### The step driver (`Executor.__call__`) -/

/-- The iterator choice of `__call__` (lines 920–935): with a transform,
pair original with transformed units when the counts match, else pair
each transformed unit with itself; without a transform, pair each unit
with `None`. -/
def make_pairs (data : ExecutorData) (mod_input_filenames : AnalysesPerOrganism)
    (current_organism : String) (current_input_filenames : List SingleAnalysis) :
    Except PyError (List (SingleAnalysis × Option SingleAnalysis)) :=
  if data.input_function.isSome then
    match mod_input_filenames.find? (fun q => q.1 == current_organism) with
    | some q =>
      if q.2.length == current_input_filenames.length then
        Except.ok (current_input_filenames.zip (q.2.map some))
      else Except.ok (q.2.zip (q.2.map some))
    | none => Except.error PyError.keyError
  else Except.ok (current_input_filenames.map (fun u => (u, none)))

/-- The inner loop of `__call__` (lines 937–944): run every unit pair,
threading accumulator, filesystem and trace. -/
def run_pairs (data : ExecutorData) (env : Env) (analysis : Analysis) :
    List (SingleAnalysis × Option SingleAnalysis) → Accs → FS → List TraceEv →
    Except PyError (Accs × FS × List TraceEv)
  | [], accs, fs, trace => pure (accs, fs, trace)
  | p :: rest, accs, fs, trace => do
    let (accs, fs, tr) ← handle_analysis data env analysis p.1 p.2 accs fs
    run_pairs data env analysis rest accs fs (trace ++ tr)

/-- The outer loop of `__call__` (lines 917–944): organisms in mapping
order. -/
def run_organisms (data : ExecutorData) (env : Env) (analysis : Analysis)
    (mod_input_filenames : AnalysesPerOrganism) :
    AnalysesPerOrganism → Accs → FS → List TraceEv →
    Except PyError (Accs × FS × List TraceEv)
  | [], accs, fs, trace => pure (accs, fs, trace)
  | p :: rest, accs, fs, trace => do
    let pairs ← make_pairs data mod_input_filenames p.1 p.2
    let (accs, fs, trace) ← run_pairs data env analysis pairs accs fs trace
    run_organisms data env analysis mod_input_filenames rest accs fs trace

/-- Everything `__call__` does before committing (lines 913–944). -/
def run_step (data : ExecutorData) (env : Env) (analysis : Analysis) (fs : FS) :
    Except PyError (Accs × FS × List TraceEv) := do
  let (input_filenames, mod_input_filenames) ← get_input_filenames data env analysis
  run_organisms data env analysis mod_input_filenames input_filenames {} fs []

/-- The commit tail of `__call__` (lines 946–951): overriding steps
replace the pipeline state by the accumulator and enable deletion;
`write_bam_files` steps that produced `.bam` outputs replace the
engine's bamfiles. -/
def commit_state (data : ExecutorData) (analysis : Analysis) (accs : Accs) :
    Analysis :=
  let analysis :=
    if data.override_last_files then
      { analysis with
          last_operation_filenames := some accs.output_filenames
          can_unlink := true }
    else analysis
  if data.write_bam_files && !accs.output_bamfiles.isEmpty then
    { analysis with bamfiles := accs.output_bamfiles }
  else analysis

/-- The observable outcome of one `Executor.__call__`. -/
structure CallResult where
  analysis : Analysis
  output_filenames : List (String × List String)
  output_bamfiles : List (String × List String)
  fs : FS
  trace : List TraceEv
deriving DecidableEq, Repr

/-- `Executor.__call__` (lines 687–951). -/
def executor_call (data : ExecutorData) (env : Env) (analysis : Analysis)
    (fs : FS) : Except PyError CallResult := do
  let (accs, fs, trace) ← run_step data env analysis fs
  pure { analysis := commit_state data analysis accs
         output_filenames := accs.output_filenames
         output_bamfiles := accs.output_bamfiles
         fs := fs
         trace := trace }

/-! ### Decidability of `Except` results -/

instance exceptDecEq {ε α : Type} [DecidableEq ε] [DecidableEq α] :
    DecidableEq (Except ε α) := fun x y =>
  match x, y with
  | Except.ok a, Except.ok b =>
    if h : a = b then isTrue (by rw [h])
    else isFalse (fun hc => by cases hc; exact h rfl)
  | Except.error e, Except.error f =>
    if h : e = f then isTrue (by rw [h])
    else isFalse (fun hc => by cases hc; exact h rfl)
  | Except.ok _, Except.error _ => isFalse (fun hc => by cases hc)
  | Except.error _, Except.ok _ => isFalse (fun hc => by cases hc)

/-! ### Concrete scenarios used as counterexamples and witnesses -/

/-- A minimal environment: no file is barcodable, every process exits 0,
the default human annotation is `hg19`, no reference data resolves. -/
def env0 : Env :=
  { classify := fun _ => none
    run_and_log := fun _ => 0
    human_annotation := "hg19"
    genome_ref_index := fun _ => none
    dbsnp := fun _ => none
    cosmic := fun _ => none
    kit_from_barcoded := fun _ => none
    cwd := "/cwd" }

/-- A minimal committing step: one command, one literal output name,
explicit raw inputs. -/
def data1 : ExecutorData :=
  { command := ExecCommand.str "run"
    output_format := some [OutputFormatItem.str "out.txt"]
    input_filenames := some ["in.fastq"]
    allow_raw_filenames := true }

def c1_expected : CallResult :=
  { analysis := { last_operation_filenames := some [("hg19", ["/cwd/out.txt"])]
                  can_unlink := true }
    output_filenames := [("hg19", ["/cwd/out.txt"])]
    output_bamfiles := []
    fs := []
    trace := [TraceEv.ranProcess "run" 0] }

/-- The same step with `override_last_files = false`. -/
def data6 : ExecutorData := { data1 with override_last_files := false }

def an6 : Analysis := { last_operation_filenames := some [("x", ["y"])] }

def c6_expected : CallResult :=
  { analysis := { last_operation_filenames := some [("x", ["y"])] }
    output_filenames := [("hg19", ["/cwd/out.txt"])]
    output_bamfiles := []
    fs := []
    trace := [TraceEv.ranProcess "run" 0] }

def an9 : Analysis := { run_fake := true }

def c9_expected : CallResult :=
  { analysis := { last_operation_filenames := some [("hg19", ["/cwd/out.txt"])]
                  can_unlink := true
                  run_fake := true }
    output_filenames := [("hg19", ["/cwd/out.txt"])]
    output_bamfiles := []
    fs := []
    trace := [TraceEv.fakedProcess "run"] }

/-- The C2 scenario: a two-command list where the first exits 0 and the
second exits 2, with a caller-supplied exception string. -/
def data2 : ExecutorData :=
  { command := ExecCommand.strList ["first_cmd ok", "second_cmd fail"]
    output_format := some [OutputFormatItem.str "out.txt"]
    exception_string := some "custom failure"
    input_filenames := some ["in.fastq"]
    allow_raw_filenames := true }

def env2 : Env :=
  { env0 with run_and_log := fun s => if s == "first_cmd ok" then 0 else 2 }

/-- The C3 mismatch scenario: one two-read unit, transformed into two
single-file units, with deletion requested and permitted. -/
def env3 : Env :=
  { env0 with classify := fun f =>
      if f == "a.R1.fastq" then some ⟨"A", Tissue.tumor, "S", "", 1⟩
      else if f == "a.R2.fastq" then some ⟨"A", Tissue.tumor, "S", "", 2⟩
      else none }

def data3 : ExecutorData :=
  { command := ExecCommand.str "run"
    input_filenames := some ["a.R1.fastq", "a.R2.fastq"]
    input_function := some (fun p =>
      match p with
      | Sum.inl s => some ("t" ++ s)
      | Sum.inr _ => some "tmany.fastq")
    split_input_files := false
    unlink_inputs := true
    allow_raw_filenames := true }

def an3 : Analysis := { can_unlink := true }

def fs3 : FS := ["a.R1.fastq", "a.R2.fastq", "ta.R1.fastq", "ta.R2.fastq"]

def c3_expected : CallResult :=
  { analysis := { last_operation_filenames := some [], can_unlink := true }
    output_filenames := []
    output_bamfiles := []
    fs := ["a.R1.fastq", "a.R2.fastq"]
    trace := [TraceEv.ranProcess "run" 0, TraceEv.ranProcess "run" 0] }

/-- The matched-count scenario for the amended C3: original unit
`in.fastq`, transformed unit `t.fastq`, both files on disk. -/
def data3w : ExecutorData :=
  { command := ExecCommand.str "run"
    input_function := some (fun _ => some "t.fastq")
    unlink_inputs := true
    allow_raw_filenames := true }

def fdIn3w : AnalysisFileData := ⟨"in.fastq", AnalysisType.Unspecified, none⟩

def fdT3w : AnalysisFileData := ⟨"t.fastq", AnalysisType.Unspecified, none⟩

def c3w_expected : Accs × FS × List TraceEv :=
  ({ output_filenames := [], output_bamfiles := [] }, ["t.fastq"],
    [TraceEv.ranProcess "run" 0])

/-- The C5 scenario: deletion requested and permitted, but the file is
not on disk. -/
def data5 : ExecutorData :=
  { command := ExecCommand.str "run", unlink_inputs := true }

def an5 : Analysis := { can_unlink := true }

def fd5 : AnalysisFileData := ⟨"gone.txt", AnalysisType.Unspecified, none⟩

/-- The C7 scenario: a transform returning an empty result for its only
input group. -/
def data7 : ExecutorData :=
  { command := ExecCommand.str "run", input_split_reads := true }

/-- The C10 scenario: a non-human sample with `only_human` set and
deletion requested and permitted. -/
def env10 : Env :=
  { env0 with classify := fun f =>
      if f == "mouse.fastq" then some ⟨"M", Tissue.tumor, "S", "mm10", 0⟩
      else none }

def data10 : ExecutorData :=
  { command := ExecCommand.str "run"
    input_filenames := some ["mouse.fastq"]
    only_human := true
    unlink_inputs := true }

def an10 : Analysis := { can_unlink := true }

def fd10 : AnalysisFileData :=
  ⟨"mouse.fastq", AnalysisType.Sample, some ⟨"M", Tissue.tumor, "S", "mm10", 0⟩⟩

def c10_expected : Accs × FS × List TraceEv :=
  ({ output_filenames := [], output_bamfiles := [] }, [], [])

/-- The C4 scenario: one tumor sample and its matched normal with the
same identity and sequencing method. -/
def bs4 : Barcode := ⟨"P1", Tissue.tumor, "SX", "hg19", 0⟩

def bc4 : Barcode := ⟨"P1", Tissue.normal, "SX", "hg19", 0⟩

def s4 : AnalysisFileData := ⟨"s.bam", AnalysisType.Sample, some bs4⟩

def c4 : AnalysisFileData := ⟨"c.bam", AnalysisType.Control, some bc4⟩

/-! ## Helper lemmas -/

theorem except_bind_ok {α β : Type} {x : Except PyError α} {f : α → Except PyError β} {b : β}
    (h : x >>= f = Except.ok b) : ∃ a, x = Except.ok a ∧ f a = Except.ok b := by
  cases x with
  | ok a => exact ⟨a, rfl, h⟩
  | error e => exact absurd h (by simp [Bind.bind, Except.bind])

theorem except_pure_ok {α : Type} {a b : α}
    (h : (pure a : Except PyError α) = Except.ok b) : a = b := by
  simpa [Pure.pure, Except.pure] using h

theorem executor_call_ok_parts (data : ExecutorData) (env : Env) (analysis : Analysis)
    (fs : FS) (r : CallResult)
    (h : executor_call data env analysis fs = Except.ok r) :
    ∃ accs fs2 tr, run_step data env analysis fs = Except.ok (accs, fs2, tr) ∧
      r = { analysis := commit_state data analysis accs
            output_filenames := accs.output_filenames
            output_bamfiles := accs.output_bamfiles
            fs := fs2
            trace := tr } := by
  unfold executor_call at h
  obtain ⟨⟨accs, fs2, tr⟩, hrun, h⟩ := except_bind_ok h
  exact ⟨accs, fs2, tr, hrun, (except_pure_ok h).symm⟩

theorem commit_state_override (data : ExecutorData) (analysis : Analysis) (accs : Accs)
    (hov : data.override_last_files = true) :
    (commit_state data analysis accs).last_operation_filenames = some accs.output_filenames ∧
    (commit_state data analysis accs).can_unlink = true := by
  unfold commit_state
  simp only [hov, if_true]
  split <;> simp

theorem commit_state_no_override (data : ExecutorData) (analysis : Analysis) (accs : Accs)
    (hov : data.override_last_files = false) :
    (commit_state data analysis accs).last_operation_filenames =
      analysis.last_operation_filenames := by
  unfold commit_state
  simp only [hov, if_false]
  split <;> simp

/-! ## C1 and C6: the commit rule -/

/-- C1: for every step executed with `override_last_files = true`, after
execution the engine's pipeline state (`analysis.last_operation_filenames`)
equals exactly the organism-to-filenames mapping accumulated by the
step's output accumulator — wholesale replacement, independent of the
prior state — and the engine becomes permitted to delete inputs in
subsequent steps (`analysis.can_unlink` becomes true). -/
theorem override_commits_accumulator (data : ExecutorData) (env : Env)
    (analysis : Analysis) (fs : FS) (r : CallResult)
    (hov : data.override_last_files = true)
    (h : executor_call data env analysis fs = Except.ok r) :
    r.analysis.last_operation_filenames = some r.output_filenames ∧
    r.analysis.can_unlink = true := by
  obtain ⟨accs, fs2, tr, _, hr⟩ := executor_call_ok_parts data env analysis fs r h
  subst hr
  exact commit_state_override data analysis accs hov

/-- C1 witness: the commit rule at a concrete successful step. -/
theorem override_commits_accumulator_witness :
    c1_expected.analysis.last_operation_filenames = some c1_expected.output_filenames ∧
    c1_expected.analysis.can_unlink = true :=
  override_commits_accumulator data1 env0 {} [] c1_expected rfl (by decide)

/-- C6: for every step executed with `override_last_files = false`, the
engine's pipeline state is identical before and after the step's
execution, whatever outputs the step produced. -/
theorem no_override_preserves_state (data : ExecutorData) (env : Env)
    (analysis : Analysis) (fs : FS) (r : CallResult)
    (hov : data.override_last_files = false)
    (h : executor_call data env analysis fs = Except.ok r) :
    r.analysis.last_operation_filenames = analysis.last_operation_filenames := by
  obtain ⟨accs, fs2, tr, _, hr⟩ := executor_call_ok_parts data env analysis fs r h
  subst hr
  exact commit_state_no_override data analysis accs hov

/-- C6 witness: a non-overriding step that produced outputs leaves the
prior state untouched. -/
theorem no_override_preserves_state_witness :
    c6_expected.analysis.last_operation_filenames = an6.last_operation_filenames :=
  no_override_preserves_state data6 env0 an6 [] c6_expected rfl (by decide)

/-! ## C2: failing command in a command list -/

/-- C2 (code bug): with a two-element command list whose first command
exits 0 and whose second exits 2, `__call__` raises `AssertionError`
from `assert isinstance(self.data.command, str)` (line 321) instead of
the promised `PipelineError` carrying the resolved exception string
("custom failure" here) — `_handle_command`'s failure path assumes a
single-string command. -/
theorem list_command_failure_asserts :
    executor_call data2 env2 {} [] = Except.error PyError.assertionError ∧
    ∀ msg, executor_call data2 env2 {} [] ≠
      Except.error (PyError.pipelineError msg) := by
  refine ⟨by decide, fun msg h => ?_⟩
  rw [(by decide : executor_call data2 env2 {} [] = Except.error PyError.assertionError)] at h
  exact PyError.noConfusion (Except.error.inj h)

/-! ## Deletion lemmas (shared by C3, C5, C10) -/

theorem os_unlink_ok {fs fs1 : FS} {f : String}
    (h : os_unlink fs f = Except.ok fs1) :
    fs1 = fs.filter (fun g => !(g == f)) := by
  unfold os_unlink at h
  split at h
  · exact (Except.ok.inj h).symm
  · exact absurd h (by simp)

theorem not_mem_filter_self {fs : FS} {f : String} :
    f ∉ fs.filter (fun g => !(g == f)) := by
  intro h
  have := List.of_mem_filter h
  simp at this

theorem unlink_bai_companion_parts {fs fs2 : FS} {f : String}
    (h : unlink_bai_companion fs f = Except.ok fs2) :
    (∀ y ∈ fs2, y ∈ fs) ∧
    ((py_lower (os_path_splitext_ext f) == ".bam") = true →
      py_drop_right f 4 ++ ".bai" ∉ fs2) := by
  unfold unlink_bai_companion at h
  split at h
  · split at h
    · have := os_unlink_ok h
      subst this
      exact ⟨fun y hy => List.mem_of_mem_filter hy, fun _ => not_mem_filter_self⟩
    · rename_i hex
      have := except_pure_ok h
      subst this
      refine ⟨fun y hy => hy, fun _ hx => ?_⟩
      simp only [os_path_exists] at hex
      exact hex (by simpa using hx)
  · rename_i hbam
    have := except_pure_ok h
    subst this
    exact ⟨fun y hy => hy, fun hb => absurd hb hbam⟩

theorem unlink_loop_subset :
    ∀ (files : List AnalysisFileData) (fs fs' : FS),
      unlink_files_loop fs files = Except.ok fs' → ∀ x ∈ fs', x ∈ fs := by
  intro files
  induction files with
  | nil =>
    intro fs fs' h x hx
    unfold unlink_files_loop at h
    exact (Except.ok.inj h) ▸ hx
  | cons fd rest ih =>
    intro fs fs' h x hx
    unfold unlink_files_loop at h
    obtain ⟨fs1, h1, hb⟩ := except_bind_ok h
    obtain ⟨fs2, h2, h3⟩ := except_bind_ok hb
    have hx2 := ih fs2 fs' h3 x hx
    have hx1 := (unlink_bai_companion_parts h2).1 x hx2
    rw [os_unlink_ok h1] at hx1
    exact List.mem_of_mem_filter hx1

theorem unlink_loop_removes :
    ∀ (files : List AnalysisFileData) (fs fs' : FS),
      unlink_files_loop fs files = Except.ok fs' →
      ∀ fd ∈ files, fd.filename ∉ fs' ∧
        ((py_lower (os_path_splitext_ext fd.filename) == ".bam") = true →
          py_drop_right fd.filename 4 ++ ".bai" ∉ fs') := by
  intro files
  induction files with
  | nil => intro fs fs' _ fd hfd; cases hfd
  | cons fd0 rest ih =>
    intro fs fs' h fd hfd
    unfold unlink_files_loop at h
    obtain ⟨fs1, h1, hb⟩ := except_bind_ok h
    obtain ⟨fs2, h2, h3⟩ := except_bind_ok hb
    rcases List.mem_cons.mp hfd with rfl | hrest
    · have hnot1 : fd.filename ∉ fs1 := (os_unlink_ok h1) ▸ not_mem_filter_self
      constructor
      · intro hx
        exact hnot1 ((unlink_bai_companion_parts h2).1 _
          (unlink_loop_subset rest fs2 fs' h3 _ hx))
      · intro hbam hx
        exact (unlink_bai_companion_parts h2).2 hbam
          (unlink_loop_subset rest fs2 fs' h3 _ hx)
    · exact ih fs2 fs' h3 fd hrest

/-! ## C5: deletion of a missing file -/

/-- C5 counterexample: with deletion requested and permitted, a unit
whose input file is missing makes `_unlink_filename` raise
`FileNotFoundError` — the condition is not swallowed and execution does
not continue. -/
theorem missing_unlink_not_swallowed :
    unlink_filename data5 an5 [fd5] none [] =
      Except.error (PyError.fileNotFoundError "gone.txt") := by decide

/-- C5 amended: `_unlink_filename` guards nothing around `os.unlink`: a
unit file that is missing at deletion time raises the filesystem error
and it propagates (only the `.bai` companion of a `.bam` file is
existence-checked before removal). -/
theorem unlink_missing_file_propagates (data : ExecutorData) (analysis : Analysis)
    (fd : AnalysisFileData) (fs : FS)
    (hu : data.unlink_inputs = true) (hc : analysis.can_unlink = true)
    (hrf : analysis.run_fake = false) (hif : data.input_function = none)
    (hmem : fd.filename ∉ fs) :
    unlink_filename data analysis [fd] none fs =
      Except.error (PyError.fileNotFoundError fd.filename) := by
  unfold unlink_filename
  simp only [hu, hc, hrf, hif, Bool.not_false, Bool.and_self, if_true,
    Option.isSome_none, Bool.false_eq_true, if_false]
  unfold unlink_files_loop
  unfold os_unlink
  unfold select_unlink_input
  simp [hmem, hif, Bind.bind, Except.bind, Pure.pure, Except.pure]

/-- C5 amended witness. -/
theorem unlink_missing_file_propagates_witness :
    unlink_filename data5 an5 [fd5] none [] =
      Except.error (PyError.fileNotFoundError fd5.filename) :=
  unlink_missing_file_propagates data5 an5 fd5 [] rfl rfl rfl rfl (by decide)

/-! ## Dissecting `_handle_analysis` results -/

theorem select_analysis_input_cases (data : ExecutorData)
    (ai : SingleAnalysis) (mi : Option SingleAnalysis)
    (real : Option SingleAnalysis) (input : SingleAnalysis)
    (hsel : select_analysis_input data ai mi = Except.ok (real, input)) :
    (data.input_function.isSome = true ∧ mi = some input ∧ real = some ai) ∨
    (data.input_function.isSome = false ∧ input = ai ∧ real = none) := by
  unfold select_analysis_input at hsel
  split at hsel
  · cases mi with
    | none => exact absurd hsel (by simp)
    | some m =>
      injection (except_pure_ok hsel) with h1 h2
      subst h1
      subst h2
      exact Or.inl ⟨by assumption, rfl, rfl⟩
  · injection (except_pure_ok hsel) with h1 h2
    subst h1
    subst h2
    exact Or.inr ⟨by simpa using (by assumption : ¬data.input_function.isSome = true), rfl, rfl⟩

/-- Whatever else a unit run does, on success the final filesystem is
the one `_unlink_filename` produced from the unit selected by
`select_analysis_input`. -/
theorem handle_analysis_unlink_parts (data : ExecutorData) (env : Env)
    (analysis : Analysis) (ai : SingleAnalysis) (mi : Option SingleAnalysis)
    (accs : Accs) (fs : FS) (r : Accs × FS × List TraceEv)
    (h : handle_analysis data env analysis ai mi accs fs = Except.ok r) :
    ∃ real input, select_analysis_input data ai mi = Except.ok (real, input) ∧
      unlink_filename data analysis input real fs = Except.ok r.2.1 := by
  unfold handle_analysis at h
  obtain ⟨⟨real, input⟩, hsel, h⟩ := except_bind_ok h
  refine ⟨real, input, hsel, ?_⟩
  dsimp only at h
  split at h
  · exact absurd h (by simp)
  · obtain ⟨⟨organism, kit⟩, hok, h⟩ := except_bind_ok h
    split at h
    · obtain ⟨ofn, hofn, h⟩ := except_bind_ok h
      obtain ⟨cmds, hcmds, h⟩ := except_bind_ok h
      obtain ⟨⟨accs2, trace⟩, hloop, h⟩ := except_bind_ok h
      obtain ⟨fs2, hunl, h⟩ := except_bind_ok h
      have hr := except_pure_ok h
      rw [← hr]
      exact hunl
    · obtain ⟨fs2, hunl, h⟩ := except_bind_ok h
      have hr := except_pure_ok h
      rw [← hr]
      exact hunl

theorem unlink_filename_flags_parts (data : ExecutorData) (analysis : Analysis)
    (input : SingleAnalysis) (real : Option SingleAnalysis) (fs fs2 : FS)
    (hu : data.unlink_inputs = true) (hc : analysis.can_unlink = true)
    (hrf : analysis.run_fake = false)
    (h : unlink_filename data analysis input real fs = Except.ok fs2) :
    ∃ files, select_unlink_input data input real = Except.ok files ∧
      unlink_files_loop fs files = Except.ok fs2 := by
  unfold unlink_filename at h
  rw [hu, hc, hrf] at h
  simp only [Bool.not_false, Bool.and_self, if_true] at h
  exact except_bind_ok h

/-! ## C3: pre-transform deletion -/

/-- C3 counterexample: a two-read unit (`split_input_files = false`,
`input_split_reads = true`) is transformed into two single-file units,
so the per-organism unit counts differ (2 ≠ 1) and `__call__` pairs
each transformed unit with itself — the step then deletes the
transformed filenames `ta.R?.fastq` and leaves the pre-transform inputs
`a.R?.fastq` on disk, contradicting "never the transformed
filenames". -/
theorem transform_mismatch_deletes_transformed :
    executor_call data3 env3 an3 fs3 = Except.ok c3_expected ∧
    "a.R1.fastq" ∈ c3_expected.fs ∧ "a.R2.fastq" ∈ c3_expected.fs ∧
    "ta.R1.fastq" ∉ c3_expected.fs ∧ "ta.R2.fastq" ∉ c3_expected.fs := by
  exact ⟨by decide, by decide, by decide, by decide, by decide⟩

/-- C3 amended: when the engine pairs an original unit with its
transformed unit (the per-organism unit counts match), the files
deleted after the unit's commands are the pre-transform inputs, and for
every deleted `.bam` input the `.bai` companion is gone as well; when
the counts differ the engine pairs each transformed unit with itself
and the transformed filenames are deleted instead
(`transform_mismatch_deletes_transformed`). -/
theorem unlink_uses_pretransform_inputs (data : ExecutorData) (env : Env)
    (analysis : Analysis) (orig modu : SingleAnalysis) (accs : Accs) (fs : FS)
    (r : Accs × FS × List TraceEv)
    (hif : data.input_function.isSome = true)
    (hu : data.unlink_inputs = true) (hc : analysis.can_unlink = true)
    (hrf : analysis.run_fake = false)
    (h : handle_analysis data env analysis orig (some modu) accs fs = Except.ok r) :
    ∀ fd ∈ orig, fd.filename ∉ r.2.1 ∧
      ((py_lower (os_path_splitext_ext fd.filename) == ".bam") = true →
        py_drop_right fd.filename 4 ++ ".bai" ∉ r.2.1) := by
  obtain ⟨real, input, hsel, hunl⟩ :=
    handle_analysis_unlink_parts data env analysis orig (some modu) accs fs r h
  rcases select_analysis_input_cases data orig (some modu) real input hsel with
    ⟨_, _, hreal⟩ | ⟨hif0, _, _⟩
  · obtain ⟨files, hself, hloop⟩ :=
      unlink_filename_flags_parts data analysis input real fs r.2.1 hu hc hrf hunl
    subst hreal
    have hfiles : files = orig := by
      unfold select_unlink_input at hself
      rw [if_pos hif] at hself
      exact (except_pure_ok hself).symm
    subst hfiles
    exact fun fd hfd => unlink_loop_removes files fs r.2.1 hloop fd hfd
  · rw [hif0] at hif
    cases hif

/-- C3 amended witness: original unit `in.fastq`, transformed unit
`t.fastq`, matched pairing — the pre-transform input is deleted. -/
theorem unlink_uses_pretransform_inputs_witness :
    fdIn3w.filename ∉ c3w_expected.2.1 :=
  ((unlink_uses_pretransform_inputs data3w env0 { can_unlink := true }
      [fdIn3w] [fdT3w] {} ["in.fastq", "t.fastq"] c3w_expected
      rfl rfl rfl rfl (by decide)) fdIn3w (by simp)).1

/-! ## C10: `only_human` skip still deletes inputs -/

/-- Under the `only_human` skip (non-empty organism not starting with
`hg`), `_handle_analysis` reduces to the deletion step alone: no
commands, no outputs, trace empty — deletion included (line 685 stands
outside the `only_human` guard). -/
theorem handle_analysis_skip_eq (data : ExecutorData) (env : Env)
    (analysis : Analysis) (ai : SingleAnalysis) (accs : Accs) (fs : FS)
    (fd : AnalysisFileData) (b : Barcode)
    (hif : data.input_function = none)
    (hoh : data.only_human = true)
    (hsc : sample_or_control ai = some fd)
    (hbar : fd.barcode = some b)
    (horg_ne : b.organism.isEmpty = false)
    (horg_hg : py_startswith b.organism "hg" = false) :
    handle_analysis data env analysis ai none accs fs =
      (unlink_filename data analysis ai none fs) >>= fun fs2 =>
        pure (accs, fs2, ([] : List TraceEv)) := by
  have hsel : select_analysis_input data ai none = Except.ok (none, ai) := by
    unfold select_analysis_input
    simp [hif, Pure.pure, Except.pure]
  have hbof : barcode_of fd = Except.ok b := by
    unfold barcode_of
    rw [hbar]
    rfl
  have hok : organism_kit_of env (some fd) =
      Except.ok (some b.organism, env.kit_from_barcoded b) := by
    unfold organism_kit_of
    dsimp only
    rw [hbof]
    rfl
  unfold handle_analysis
  rw [hsel]
  simp only [Except.bind, Bind.bind]
  rw [hsc]
  simp only [Option.isNone_some, Bool.and_false, Bool.false_eq_true, if_false]
  rw [hok]
  dsimp only
  simp only [hoh, py_truthy_str, horg_ne, horg_hg, Option.getD_some,
    Bool.not_true, Bool.not_false, Bool.or_self, Bool.false_or, Bool.false_eq_true,
    if_false]

/-- C10: a unit skipped by `only_human` (non-empty organism, not
human-genome) runs no command and records no output — its trace and
accumulator are untouched — yet with `unlink_inputs = true`, deletion
permitted and a real run, the unit's input files are still deleted. -/
theorem only_human_skip_still_unlinks (data : ExecutorData) (env : Env)
    (analysis : Analysis) (ai : SingleAnalysis) (accs : Accs) (fs : FS)
    (r : Accs × FS × List TraceEv) (fd : AnalysisFileData) (b : Barcode)
    (hif : data.input_function = none)
    (hoh : data.only_human = true)
    (hsc : sample_or_control ai = some fd)
    (hbar : fd.barcode = some b)
    (horg_ne : b.organism.isEmpty = false)
    (horg_hg : py_startswith b.organism "hg" = false)
    (hu : data.unlink_inputs = true) (hc : analysis.can_unlink = true)
    (hrf : analysis.run_fake = false)
    (h : handle_analysis data env analysis ai none accs fs = Except.ok r) :
    r.1 = accs ∧ r.2.2 = [] ∧ ∀ fd2 ∈ ai, fd2.filename ∉ r.2.1 := by
  rw [handle_analysis_skip_eq data env analysis ai accs fs fd b
    hif hoh hsc hbar horg_ne horg_hg] at h
  obtain ⟨fs2, hunl, h⟩ := except_bind_ok h
  have hr := except_pure_ok h
  obtain ⟨files, hself, hloop⟩ :=
    unlink_filename_flags_parts data analysis ai none fs fs2 hu hc hrf hunl
  have hfiles : files = ai := by
    unfold select_unlink_input at hself
    rw [hif] at hself
    simpa using (except_pure_ok hself).symm
  subst hfiles
  refine ⟨by rw [← hr], by rw [← hr], fun fd2 hfd2 => ?_⟩
  have := (unlink_loop_removes files fs fs2 hloop fd2 hfd2).1
  rw [← hr]
  exact this

/-- C10 witness: the mouse sample is skipped but its file is deleted. -/
theorem only_human_skip_still_unlinks_witness :
    c10_expected.1 = ({} : Accs) ∧ c10_expected.2.2 = [] ∧
    ∀ fd2 ∈ [fd10], fd2.filename ∉ c10_expected.2.1 :=
  only_human_skip_still_unlinks data10 env10 an10 [fd10] {} ["mouse.fastq"]
    c10_expected fd10 ⟨"M", Tissue.tumor, "S", "mm10", 0⟩
    rfl rfl (by decide) rfl (by decide) (by decide) rfl rfl rfl (by decide)

/-! ## C9: dry-run execution -/

/-- In a dry run `_handle_command` launches nothing: it logs a faked
event and proceeds as if the command exited 0. -/
theorem handle_command_fake (data : ExecutorData) (env : Env) (analysis : Analysis)
    (cmd : ResolvedCommand) (ctx : Ctx)
    (hfake : analysis.run_fake = true) :
    ∃ ev, handle_command data env analysis cmd ctx = Except.ok [ev] ∧
      ev.is_real = false := by
  cases cmd with
  | proc s =>
    refine ⟨TraceEv.fakedProcess s, ?_, rfl⟩
    unfold handle_command
    simp [hfake, Pure.pure, Except.pure]
  | callback n =>
    refine ⟨TraceEv.fakedCallback n, ?_, rfl⟩
    unfold handle_command
    simp [hfake, Pure.pure, Except.pure]

theorem commands_loop_fake_trace (data : ExecutorData) (env : Env)
    (analysis : Analysis) (ctx : Ctx) (ofn : OutputFilenameVal)
    (organism : String) (clen : Nat) (hfake : analysis.run_fake = true) :
    ∀ (cmds : List (Nat × ResolvedCommand)) (accs : Accs) (tr0 : List TraceEv)
      (out : Accs × List TraceEv),
      (∀ ev ∈ tr0, ev.is_real = false) →
      handle_commands_loop data env analysis ctx ofn organism clen cmds accs tr0 =
        Except.ok out →
      ∀ ev ∈ out.2, ev.is_real = false := by
  intro cmds
  induction cmds with
  | nil =>
    intro accs tr0 out h0 h
    unfold handle_commands_loop at h
    rw [← except_pure_ok h]
    exact h0
  | cons p rest ih =>
    intro accs tr0 out h0 h
    unfold handle_commands_loop at h
    obtain ⟨tr, hcmd, h⟩ := except_bind_ok h
    obtain ⟨ev, hev, hreal⟩ := handle_command_fake data env analysis p.2 ctx hfake
    rw [hev] at hcmd
    have htr : tr = [ev] := (Except.ok.inj hcmd).symm
    subst htr
    refine ih _ (tr0 ++ [ev]) out (fun e he => ?_) h
    rcases List.mem_append.mp he with h1 | h2
    · exact h0 e h1
    · rw [List.mem_singleton.mp h2]
      exact hreal

theorem handle_analysis_fake_trace (data : ExecutorData) (env : Env)
    (analysis : Analysis) (ai : SingleAnalysis) (mi : Option SingleAnalysis)
    (accs : Accs) (fs : FS) (r : Accs × FS × List TraceEv)
    (hfake : analysis.run_fake = true)
    (h : handle_analysis data env analysis ai mi accs fs = Except.ok r) :
    ∀ ev ∈ r.2.2, ev.is_real = false := by
  unfold handle_analysis at h
  obtain ⟨⟨real, input⟩, hsel, h⟩ := except_bind_ok h
  dsimp only at h
  split at h
  · exact absurd h (by simp)
  · obtain ⟨⟨organism, kit⟩, hok, h⟩ := except_bind_ok h
    split at h
    · obtain ⟨ofn, _, h⟩ := except_bind_ok h
      obtain ⟨cmds, _, h⟩ := except_bind_ok h
      obtain ⟨⟨accs2, trace⟩, hloop, h⟩ := except_bind_ok h
      obtain ⟨fs2, _, h⟩ := except_bind_ok h
      rw [← except_pure_ok h]
      exact commands_loop_fake_trace data env analysis _ ofn _ cmds.length hfake
        cmds.enum accs [] (accs2, trace) (by simp) hloop
    · obtain ⟨fs2, _, h⟩ := except_bind_ok h
      rw [← except_pure_ok h]
      simp

theorem run_pairs_fake_trace (data : ExecutorData) (env : Env)
    (analysis : Analysis) (hfake : analysis.run_fake = true) :
    ∀ (pairs : List (SingleAnalysis × Option SingleAnalysis)) (accs : Accs)
      (fs : FS) (tr0 : List TraceEv) (out : Accs × FS × List TraceEv),
      (∀ ev ∈ tr0, ev.is_real = false) →
      run_pairs data env analysis pairs accs fs tr0 = Except.ok out →
      ∀ ev ∈ out.2.2, ev.is_real = false := by
  intro pairs
  induction pairs with
  | nil =>
    intro accs fs tr0 out h0 h
    unfold run_pairs at h
    rw [← except_pure_ok h]
    exact h0
  | cons p rest ih =>
    intro accs fs tr0 out h0 h
    unfold run_pairs at h
    obtain ⟨⟨accs2, fs2, tr⟩, hha, h⟩ := except_bind_ok h
    have htr := handle_analysis_fake_trace data env analysis p.1 p.2 accs fs
      (accs2, fs2, tr) hfake hha
    refine ih accs2 fs2 (tr0 ++ tr) out (fun e he => ?_) h
    rcases List.mem_append.mp he with h1 | h2
    · exact h0 e h1
    · exact htr e h2

theorem run_organisms_fake_trace (data : ExecutorData) (env : Env)
    (analysis : Analysis) (mod : AnalysesPerOrganism)
    (hfake : analysis.run_fake = true) :
    ∀ (orgs : AnalysesPerOrganism) (accs : Accs) (fs : FS) (tr0 : List TraceEv)
      (out : Accs × FS × List TraceEv),
      (∀ ev ∈ tr0, ev.is_real = false) →
      run_organisms data env analysis mod orgs accs fs tr0 = Except.ok out →
      ∀ ev ∈ out.2.2, ev.is_real = false := by
  intro orgs
  induction orgs with
  | nil =>
    intro accs fs tr0 out h0 h
    unfold run_organisms at h
    rw [← except_pure_ok h]
    exact h0
  | cons p rest ih =>
    intro accs fs tr0 out h0 h
    unfold run_organisms at h
    obtain ⟨pairs, hmk, h⟩ := except_bind_ok h
    obtain ⟨⟨accs2, fs2, tr2⟩, hrp, h⟩ := except_bind_ok h
    exact ih accs2 fs2 tr2 out
      (run_pairs_fake_trace data env analysis hfake pairs accs fs tr0
        (accs2, fs2, tr2) h0 hrp) h

theorem run_step_fake_trace (data : ExecutorData) (env : Env)
    (analysis : Analysis) (fs : FS) (out : Accs × FS × List TraceEv)
    (hfake : analysis.run_fake = true)
    (h : run_step data env analysis fs = Except.ok out) :
    ∀ ev ∈ out.2.2, ev.is_real = false := by
  unfold run_step at h
  obtain ⟨⟨inp, mod⟩, _, h⟩ := except_bind_ok h
  exact run_organisms_fake_trace data env analysis mod hfake inp {} fs []
    out (by simp) h

/-- C9: in a dry run (`analysis.run_fake`) no external process is
launched and no callback is invoked — `_handle_command` returns a faked
event and a zero exit status for every command, and every event in a
successful step's trace is a faked one — while output bookkeeping
proceeds: with `override_last_files = true`, the accumulated outputs
are committed as the new pipeline state. -/
theorem dry_run_no_execution (data : ExecutorData) (env : Env)
    (analysis : Analysis) (fs : FS) (r : CallResult)
    (cmd : ResolvedCommand) (ctx : Ctx)
    (hfake : analysis.run_fake = true)
    (h : executor_call data env analysis fs = Except.ok r) :
    (∃ ev, handle_command data env analysis cmd ctx = Except.ok [ev] ∧
      ev.is_real = false) ∧
    (∀ ev ∈ r.trace, ev.is_real = false) ∧
    (data.override_last_files = true →
      r.analysis.last_operation_filenames = some r.output_filenames ∧
      r.analysis.can_unlink = true) := by
  obtain ⟨accs, fs2, tr, hrun, hr⟩ := executor_call_ok_parts data env analysis fs r h
  refine ⟨handle_command_fake data env analysis cmd ctx hfake, ?_,
    fun hov => ?_⟩
  · rw [hr]
    exact run_step_fake_trace data env analysis fs (accs, fs2, tr) hfake hrun
  · rw [hr]
    exact commit_state_override data analysis accs hov

/-- C9 witness: the committing step of `c1_expected`, dry-run. -/
theorem dry_run_no_execution_witness :
    (∃ ev, handle_command data1 env0 an9 (ResolvedCommand.proc "run") [] =
      Except.ok [ev] ∧ ev.is_real = false) ∧
    (∀ ev ∈ c9_expected.trace, ev.is_real = false) ∧
    (data1.override_last_files = true →
      c9_expected.analysis.last_operation_filenames = some c9_expected.output_filenames ∧
      c9_expected.analysis.can_unlink = true) :=
  dry_run_no_execution data1 env0 an9 [] c9_expected
    (ResolvedCommand.proc "run") [] rfl (by decide)

/-! ## C8: unresolvable placeholders -/

theorem resolve_template_go_err (ctx : Ctx) :
    ∀ (ps : List String) (acc : String) (e : String),
      e ∈ ps → ctx_lookup ctx e = none →
      ∃ msg, resolve_template_go ctx ps acc =
        Except.error (PyError.pipelineError msg) := by
  intro ps
  induction ps with
  | nil => intro acc e he; cases he
  | cons p rest ih =>
    intro acc e he hl
    unfold resolve_template_go
    cases hp : ctx_lookup ctx p with
    | none => exact ⟨"cannot evaluate " ++ p, rfl⟩
    | some v =>
      dsimp only
      rcases List.mem_cons.mp he with rfl | hrest
      · rw [hp] at hl
        cases hl
      · by_cases hn : (v == PyVal.noneVal) = true
        · rw [if_pos hn]
          exact ⟨"evaluation of " ++ p ++ " is None", rfl⟩
        · rw [if_neg hn]
          exact ih _ e hrest hl

/-- C8: a template containing a placeholder whose expression cannot be
evaluated against the variable context resolves to
`TemplateEvaluationError` (`PipelineError`), and no partially
substituted result is produced — resolution never returns a string.
This is the resolver shared by `_get_output_filename` (lines 230–242)
and `_get_commands` (lines 574–609). -/
theorem unresolvable_placeholder_fails (ctx : Ctx) (s e : String)
    (he : e ∈ find_placeholders s) (hl : ctx_lookup ctx e = none) :
    (∃ msg, resolve_template ctx s = Except.error (PyError.pipelineError msg)) ∧
    ∀ out, resolve_template ctx s ≠ Except.ok out := by
  obtain ⟨msg, hmsg⟩ := resolve_template_go_err ctx (find_placeholders s) s e he hl
  refine ⟨⟨msg, hmsg⟩, fun out hout => ?_⟩
  rw [resolve_template] at hout
  rw [hmsg] at hout
  cases hout

/-- C8 witness: the template made of the single placeholder `x` against
the empty context. -/
theorem unresolvable_placeholder_fails_witness :
    (∃ msg, resolve_template [] (mk_placeholder "x") =
      Except.error (PyError.pipelineError msg)) ∧
    ∀ out, resolve_template [] (mk_placeholder "x") ≠ Except.ok out :=
  unresolvable_placeholder_fails [] (mk_placeholder "x") "x" (by decide) rfl

/-! ## C7: empty transform results -/

/-- C7 counterexample: the transform returns an empty result for its
only input group, yet `_create_mod_input_filenames` raises nothing —
it returns the transformed state with the organism key present and
zero units (the group is silently skipped, and the `empty input list`
check only sees organism keys, which `setdefault` always inserts). -/
theorem empty_transform_results_no_error :
    create_mod_input_filenames data7 env0 (fun _ => none) [("org", [[fd5]])] =
      Except.ok ([("org", [[fd5]])], [("org", [])]) ∧
    ∀ e, create_mod_input_filenames data7 env0 (fun _ => none) [("org", [[fd5]])] ≠
      Except.error e := by
  refine ⟨by decide, fun e he => ?_⟩
  rw [(by decide : create_mod_input_filenames data7 env0 (fun _ => none)
    [("org", [[fd5]])] = Except.ok ([("org", [[fd5]])], [("org", [])]))] at he
  cases he

theorem map_keyed_keys (l : AnalysesPerOrganism)
    (g : String × List SingleAnalysis → List SingleAnalysis) :
    (l.map (fun p => (p.1, g p))).map Prod.fst = l.map Prod.fst := by
  induction l with
  | nil => rfl
  | cons p rest ih => simp [ih]

theorem fix_input_filenames_parts (data : ExecutorData)
    (input : AnalysesPerOrganism) (hne : input ≠ []) :
    ∃ out, fix_input_filenames data input = Except.ok out ∧
      out.map Prod.fst = input.map Prod.fst := by
  have hie : input.isEmpty = false := by
    cases input with
    | nil => exact absurd rfl hne
    | cons a l => rfl
  unfold fix_input_filenames
  rw [hie]
  simp only [Bool.false_eq_true, if_false]
  split
  · exact ⟨_, rfl, map_keyed_keys input (fun p => [p.2.flatten])⟩
  · exact ⟨input, rfl, rfl⟩

/-- C7 amended: `_create_mod_input_filenames` never fails on a
non-empty input mapping — a transform producing an empty result is
silently skipped (its group yields no unit,
`empty_transform_results_no_error`), organism keys are always carried
over to the transformed state, and the `empty input list` error can
only fire when the input state itself has no organisms. -/
theorem create_mod_succeeds_on_nonempty_input (data : ExecutorData) (env : Env)
    (f : PyStrOrList → Option String) (input : AnalysesPerOrganism)
    (hne : input ≠ []) :
    ∃ r, create_mod_input_filenames data env f input = Except.ok r ∧
      r.2.map Prod.fst = input.map Prod.fst := by
  obtain ⟨fixed, hfix, hkeys⟩ := fix_input_filenames_parts data input hne
  have hfixne : fixed ≠ [] := by
    intro h0
    rw [h0] at hkeys
    exact hne (List.map_eq_nil_iff.mp hkeys.symm)
  unfold create_mod_input_filenames
  rw [hfix]
  simp only [Except.bind, Bind.bind]
  have hmodkeys := map_keyed_keys fixed (fun p =>
    p.2.foldl (fun mod_analyses analysis =>
      mod_analyses ++ mod_units_of_analysis data env f analysis) [])
  have hmodne : fixed.map (fun p => (p.1,
      p.2.foldl (fun mod_analyses analysis =>
        mod_analyses ++ mod_units_of_analysis data env f analysis) [])) ≠ [] := by
    intro h0
    exact hfixne (List.map_eq_nil_iff.mp h0)
  have hmodie : (fixed.map (fun p => (p.1,
      p.2.foldl (fun mod_analyses analysis =>
        mod_analyses ++ mod_units_of_analysis data env f analysis) []))).isEmpty = false := by
    cases hx : fixed.map (fun p => (p.1,
      p.2.foldl (fun mod_analyses analysis =>
        mod_analyses ++ mod_units_of_analysis data env f analysis) [])) with
    | nil => exact absurd hx hmodne
    | cons a l => rfl
  rw [hmodie]
  simp only [Bool.false_eq_true, if_false]
  obtain ⟨fm, hfm, hfmkeys⟩ := fix_input_filenames_parts data
    (fixed.map (fun p => (p.1,
      p.2.foldl (fun mod_analyses analysis =>
        mod_analyses ++ mod_units_of_analysis data env f analysis) []))) hmodne
  rw [hfm]
  refine ⟨(fixed, fm), rfl, ?_⟩
  exact hfmkeys.trans (hmodkeys.trans hkeys)

/-- C7 amended witness: the all-empty transform of the counterexample
succeeds and keeps its organism key. -/
theorem create_mod_succeeds_on_nonempty_input_witness :
    ∃ r, create_mod_input_filenames data7 env0 (fun _ => none) [("org", [[fd5]])] =
      Except.ok r ∧
      r.2.map Prod.fst = [("org", [[fd5]])].map Prod.fst :=
  create_mod_succeeds_on_nonempty_input data7 env0 (fun _ => none)
    [("org", [[fd5]])] (by decide)

/-! ## C4: normals pairing -/

/-- C4: when an organism's unit list holds exactly one single-file
role-Sample unit and one single-file role-Control unit whose barcode
matches the sample's ignoring tissue type and whose sequencing method
equals the sample's, `_get_fixed_normals_analyses` moves the control
into the sample's unit and drops the emptied source unit: both files
end up in the same single unit and no other unit remains. -/
theorem normals_pairing_merges_sample_control
    (s c : AnalysisFileData) (bs bc : Barcode)
    (hs_type : s.type = AnalysisType.Sample)
    (hs_bar : s.barcode = some bs)
    (hc_bar : c.barcode = some bc)
    (hs_tumor : bs.tissue.is_normal = false)
    (hc_normal : bc.tissue.is_normal = true)
    (hmatch : bs.equals_without_tissue bc = true)
    (_hseq : bc.sequencing = bs.sequencing) :
    get_fixed_normals_analyses [[s], [c]] = Except.ok [[s, c]] := by
  have hself : bs.equals_without_tissue bs = true := by
    simp [Barcode.equals_without_tissue]
  have hcc : collect_controls [[s], [c]] bs = Except.ok [(1, 0, c)] := by
    unfold collect_controls
    simp [barcode_of, hs_bar, hc_bar, hself, hmatch, hs_tumor, hc_normal,
      List.foldlM, List.enum, List.enumFrom,
      Bind.bind, Except.bind, Pure.pure, Except.pure]
  have h0 : fixed_normals_step [[s], [c]] 0 = Except.ok [[s, c], []] := by
    unfold fixed_normals_step
    simp [hs_type, barcode_of, hs_bar, hcc, remove_idxs,
      Bind.bind, Except.bind, Pure.pure, Except.pure]
  have h1 : fixed_normals_step [[s, c], []] 1 = Except.ok [[s, c], []] := rfl
  unfold get_fixed_normals_analyses
  rw [show List.range ([[s], [c]] : List SingleAnalysis).length = [0, 1] from rfl]
  simp [h0, h1, List.foldlM, Bind.bind, Except.bind, Pure.pure, Except.pure]

/-- C4 witness: a concrete tumor/normal pair with matching identity and
sequencing. -/
theorem normals_pairing_merges_sample_control_witness :
    get_fixed_normals_analyses [[s4], [c4]] = Except.ok [[s4, c4]] :=
  normals_pairing_merges_sample_control s4 c4 bs4 bc4
    rfl rfl rfl (by decide) (by decide) (by decide) rfl

end Hatspil
